import Mathlib

/-!
Shallow embedding of `reservation_system.py`: the classes `Hotel`,
`Customer` and `Reservation` and their methods.  The JSON files backing
each collection are modelled as explicit lists threaded through each
operation; Python's first-match-then-break update loops become
`updateFirst`, full-list filters become `List.filter`, and `find`-style
linear scans become `List.find?`.  Python integers are unbounded, so
room counts are `Int`.
-/

/-- Structure mirroring the attributes of the Python class `Hotel`
(`hotel_id`, `name`, `location`, `total_rooms`, `available_rooms`). -/
structure Hotel where
  hotel_id : String
  name : String
  location : String
  total_rooms : Int
  available_rooms : Int
deriving DecidableEq

/-- Structure mirroring the attributes of the Python class `Customer`. -/
structure Customer where
  customer_id : String
  name : String
  email : String
  phone : String
deriving DecidableEq

/-- Structure mirroring the attributes of the Python class `Reservation`. -/
structure Reservation where
  reservation_id : String
  customer_id : String
  hotel_id : String
  reservation_date : String
deriving DecidableEq

/-- Replaces the first element satisfying `p` by its image under `f`,
leaving the rest untouched: the `for ... if match: update; break`
pattern used throughout `reservation_system.py`. -/
def updateFirst (p : α → Bool) (f : α → α) : List α → List α
  | [] => []
  | x :: xs => if p x then f x :: xs else x :: updateFirst p f xs

/-- Python's `if arg:` merge of an optional string field: the field is
updated only when the argument is present and non-empty (truthy). -/
def applyStr (cur : String) (arg : Option String) : String :=
  match arg with
  | some s => if s != "" then s else cur
  | none => cur

/-- `Hotel.create_hotel` (lines 66-77): builds the new hotel with
`available_rooms = total_rooms` and appends its record to the hotels
file.  The generated uuid is passed in explicitly as `hid`. -/
def Hotel.create_hotel (hid nm loc : String) (total : Int)
    (hotels : List Hotel) : Hotel × List Hotel :=
  let new_hotel : Hotel := ⟨hid, nm, loc, total, total⟩
  (new_hotel, hotels ++ [new_hotel])

/-- `Hotel.get_hotel` (lines 90-99): linear scan of the hotels file for
the first record with the given id; `None` when absent. -/
def Hotel.get_hotel (hid : String) (hotels : List Hotel) : Option Hotel :=
  hotels.find? (fun h => h.hotel_id == hid)

/-- `Hotel.delete_hotel` (lines 79-88): filters out every record with
the given id.  (When nothing matched the file is not rewritten, but the
filtered list equals the original in that case.) -/
def Hotel.delete_hotel (hid : String) (hotels : List Hotel) : List Hotel :=
  hotels.filter (fun h => !(h.hotel_id == hid))

/-- `Hotel.modify_info` (lines 112-134): truthy string fields are
merged; when `total_rooms` is supplied (`is not None`) the availability
is shifted by the delta and clamped below at zero; the first matching
file record is then overwritten with the whole updated instance
(`h.update(self.__dict__)`). -/
def Hotel.modify_info (self : Hotel) (nm loc : Option String)
    (total : Option Int) (hotels : List Hotel) : Hotel × List Hotel :=
  let s1 := { self with name := applyStr self.name nm }
  let s2 := { s1 with location := applyStr s1.location loc }
  let s3 :=
    match total with
    | none => s2
    | some t =>
      let difference := t - s2.total_rooms
      let a := s2.available_rooms + difference
      { s2 with total_rooms := t, available_rooms := if a < 0 then 0 else a }
  (s3, updateFirst (fun h => h.hotel_id == self.hotel_id) (fun _ => s3) hotels)

/-- `Hotel.reserve_room` (lines 136-153): when a room is available the
instance decrements `available_rooms` and writes just that field into
the first matching file record; otherwise it returns `False` with no
change to instance or file. -/
def Hotel.reserve_room (self : Hotel) (hotels : List Hotel) :
    Bool × Hotel × List Hotel :=
  if self.available_rooms > 0 then
    let s := { self with available_rooms := self.available_rooms - 1 }
    (true, s, updateFirst (fun h => h.hotel_id == self.hotel_id)
      (fun h => { h with available_rooms := s.available_rooms }) hotels)
  else
    (false, self, hotels)

/-- `Hotel.cancel_room` (lines 155-170): when the hotel is not already
full the instance increments `available_rooms` and writes that field
into the first matching file record; otherwise it returns `False` with
no change. -/
def Hotel.cancel_room (self : Hotel) (hotels : List Hotel) :
    Bool × Hotel × List Hotel :=
  if self.available_rooms < self.total_rooms then
    let s := { self with available_rooms := self.available_rooms + 1 }
    (true, s, updateFirst (fun h => h.hotel_id == self.hotel_id)
      (fun h => { h with available_rooms := s.available_rooms }) hotels)
  else
    (false, self, hotels)

/-- `Customer.create_customer` (lines 182-190). -/
def Customer.create_customer (cid nm em ph : String)
    (customers : List Customer) : Customer × List Customer :=
  let new_customer : Customer := ⟨cid, nm, em, ph⟩
  (new_customer, customers ++ [new_customer])

/-- `Customer.get_customer` (lines 205-214). -/
def Customer.get_customer (cid : String) (customers : List Customer) :
    Option Customer :=
  customers.find? (fun c => c.customer_id == cid)

/-- `Customer.delete_customer` (lines 192-203). -/
def Customer.delete_customer (cid : String) (customers : List Customer) :
    List Customer :=
  customers.filter (fun c => !(c.customer_id == cid))

/-- `Customer.modify_info` (lines 226-239): every field is merged under
Python truthiness, then the first matching file record is overwritten
with the updated instance. -/
def Customer.modify_info (self : Customer) (nm em ph : Option String)
    (customers : List Customer) : Customer × List Customer :=
  let s1 := { self with name := applyStr self.name nm }
  let s2 := { s1 with email := applyStr s1.email em }
  let s3 := { s2 with phone := applyStr s2.phone ph }
  (s3, updateFirst (fun c => c.customer_id == self.customer_id)
    (fun _ => s3) customers)

/-- A Python value passed to `Reservation.create_reservation`: an actual
`Customer` instance, an actual `Hotel` instance, or anything else (a
bare string, `None`, ...), which fails the `isinstance` checks. -/
inductive PyVal where
  | customer (c : Customer)
  | hotel (h : Hotel)
  | other
deriving DecidableEq

/-- Mirrors `isinstance(x, Customer)`. -/
def PyVal.isCustomer : PyVal → Bool
  | PyVal.customer _ => true
  | _ => false

/-- Mirrors `isinstance(x, Hotel)`. -/
def PyVal.isHotel : PyVal → Bool
  | PyVal.hotel _ => true
  | _ => false

/-- The three JSON files of the system as one state. -/
structure SysState where
  hotels : List Hotel
  customers : List Customer
  reservations : List Reservation
deriving DecidableEq

/-- `Reservation.create_reservation` (lines 252-274): both arguments
must pass `isinstance`, then `hotel.reserve_room()` must succeed, and
only then is a new reservation record appended.  The generated uuid and
timestamp are passed in explicitly. -/
def Reservation.create_reservation (cust hot : PyVal) (rid date : String)
    (st : SysState) : Option Reservation × SysState :=
  match cust, hot with
  | PyVal.customer c, PyVal.hotel h =>
    let r := Hotel.reserve_room h st.hotels
    if r.1 then
      let nr : Reservation := ⟨rid, c.customer_id, h.hotel_id, date⟩
      (some nr, { st with hotels := r.2.2,
                          reservations := st.reservations ++ [nr] })
    else
      (none, st)
  | _, _ => (none, st)

/-- `Reservation.cancel_reservation` (lines 276-299): scans the
reservations file for the id; if absent returns `False`.  Otherwise it
fetches the referenced hotel and, when found, calls `cancel_room` on
it (skipping the restoration when the hotel is gone), then removes the
reservation record and returns `True`. -/
def Reservation.cancel_reservation (rid : String) (st : SysState) :
    Bool × SysState :=
  match st.reservations.find? (fun r => r.reservation_id == rid) with
  | none => (false, st)
  | some r =>
    let hotels' :=
      match Hotel.get_hotel r.hotel_id st.hotels with
      | some h => (Hotel.cancel_room h st.hotels).2.2
      | none => st.hotels
    (true, { st with hotels := hotels',
                     reservations := st.reservations.filter
                       (fun x => !(x.reservation_id == rid)) })

/-- One operation of the system, acting on the persisted state.  For
the instance methods the instance is the freshly loaded record with the
given id (a no-op when the id is absent, since Python has no instance
to call the method on).  For `createRes`, `some id` stands for an
instance freshly fetched by that id (an id that fetches nothing gives
`None`, which fails `isinstance` just like a bare string), and `none`
stands for a non-entity argument. -/
inductive Op where
  | createHotel (hid nm loc : String) (total : Int)
  | modifyHotel (hid : String) (nm loc : Option String) (total : Option Int)
  | reserveRoom (hid : String)
  | cancelRoom (hid : String)
  | createRes (cust hot : Option String) (rid date : String)
  | cancelRes (rid : String)

/-- Interprets one operation on the system state. -/
def runOp (st : SysState) : Op → SysState
  | Op.createHotel hid nm loc total =>
    { st with hotels := (Hotel.create_hotel hid nm loc total st.hotels).2 }
  | Op.modifyHotel hid nm loc total =>
    match Hotel.get_hotel hid st.hotels with
    | none => st
    | some h =>
      { st with hotels := (Hotel.modify_info h nm loc total st.hotels).2 }
  | Op.reserveRoom hid =>
    match Hotel.get_hotel hid st.hotels with
    | none => st
    | some h => { st with hotels := (Hotel.reserve_room h st.hotels).2.2 }
  | Op.cancelRoom hid =>
    match Hotel.get_hotel hid st.hotels with
    | none => st
    | some h => { st with hotels := (Hotel.cancel_room h st.hotels).2.2 }
  | Op.createRes cust hot rid date =>
    let cv : PyVal :=
      match cust with
      | none => PyVal.other
      | some cid =>
        match Customer.get_customer cid st.customers with
        | some c => PyVal.customer c
        | none => PyVal.other
    let hv : PyVal :=
      match hot with
      | none => PyVal.other
      | some hid =>
        match Hotel.get_hotel hid st.hotels with
        | some h => PyVal.hotel h
        | none => PyVal.other
    (Reservation.create_reservation cv hv rid date st).2
  | Op.cancelRes rid => (Reservation.cancel_reservation rid st).2

/-- Runs a sequence of operations from left to right. -/
def runOps (ops : List Op) (st : SysState) : SysState :=
  ops.foldl runOp st

/-- Well-formed operation: every `total_rooms` argument respects the
data model's declared type, a non-negative integer. -/
def Op.wf : Op → Bool
  | Op.createHotel _ _ _ total => decide (0 ≤ total)
  | Op.modifyHotel _ _ _ total =>
    match total with
    | some t => decide (0 ≤ t)
    | none => true
  | _ => true

/-- The room-count invariant of one hotel record. -/
def hotelInv (h : Hotel) : Prop :=
  0 ≤ h.available_rooms ∧ h.available_rooms ≤ h.total_rooms

instance (h : Hotel) : Decidable (hotelInv h) :=
  inferInstanceAs (Decidable (_ ∧ _))

/-- The room-count invariant over every hotel record in the store. -/
def HotelsInv (st : SysState) : Prop :=
  ∀ h ∈ st.hotels, hotelInv h

instance (st : SysState) : Decidable (HotelsInv st) :=
  inferInstanceAs (Decidable (∀ h ∈ st.hotels, hotelInv h))

/-! ## Helper lemmas -/

/-- Scanning for `p` in a list from which every `p`-element was filtered
out finds nothing. -/
theorem find?_filter_not_eq_none (p : α → Bool) (l : List α) :
    (l.filter (fun x => !(p x))).find? p = none := by
  induction l with
  | nil => rfl
  | cons a l ih =>
    by_cases hpa : p a = true
    · simp [List.filter, hpa, ih]
    · simp only [Bool.not_eq_true] at hpa
      simp [List.filter, List.find?, hpa, ih]

/-- When nothing matches, `updateFirst` is the identity. -/
theorem updateFirst_of_find?_none {p : α → Bool} {f : α → α} {l : List α}
    (hf : l.find? p = none) : updateFirst p f l = l := by
  induction l with
  | nil => rfl
  | cons a l ih =>
    by_cases hpa : p a = true
    · rw [List.find?_cons_of_pos _ hpa] at hf
      exact absurd hf (by simp)
    · simp only [Bool.not_eq_true] at hpa
      rw [List.find?_cons_of_neg _ (by simp [hpa])] at hf
      simp [updateFirst, hpa, ih hf]

/-- Every element of `updateFirst p f l` is an element of `l` or the
image under `f` of the first `p`-match of `l`. -/
theorem mem_updateFirst {p : α → Bool} {f : α → α} {l : List α} {x : α}
    (hx : x ∈ updateFirst p f l) :
    x ∈ l ∨ ∃ y, l.find? p = some y ∧ x = f y := by
  induction l with
  | nil => simp [updateFirst] at hx
  | cons a l ih =>
    by_cases hpa : p a = true
    · simp only [updateFirst, hpa, if_true, List.mem_cons] at hx
      rcases hx with hx | hx
      · exact Or.inr ⟨a, List.find?_cons_of_pos _ hpa, hx⟩
      · exact Or.inl (List.mem_cons_of_mem _ hx)
    · simp only [updateFirst, hpa, if_false, Bool.false_eq_true, List.mem_cons] at hx
      rcases hx with hx | hx
      · exact Or.inl (by simp [hx])
      · rcases ih hx with hmem | ⟨y, hy, hxy⟩
        · exact Or.inl (List.mem_cons_of_mem _ hmem)
        · refine Or.inr ⟨y, ?_, hxy⟩
          rw [List.find?_cons_of_neg _ (by simp [hpa])]
          exact hy

/-! ## Claim theorems -/

/-- C2: `modify_info` with a new `total_rooms` value sets `total_rooms`
to it and shifts `available_rooms` by the delta, clamped at a floor of
zero (the `max 0` formula enforces no ceiling); in particular updating
5 to 8 on a previously full hotel moves `available_rooms` from 5 to 8. -/
theorem modify_info_total_shift (h : Hotel) (nm loc : Option String)
    (t : Int) (hotels : List Hotel) :
    (Hotel.modify_info h nm loc (some t) hotels).1.total_rooms = t ∧
    (Hotel.modify_info h nm loc (some t) hotels).1.available_rooms
      = max 0 (h.available_rooms + (t - h.total_rooms)) ∧
    (Hotel.modify_info ⟨"h1", "n", "l", 5, 5⟩ none none (some 8) []).1.available_rooms
      = 8 := by
  refine ⟨rfl, ?_, by decide⟩
  simp only [Hotel.modify_info]
  split <;> omega

/-- C3 counterexample: on the hotel with `total_rooms = 1` and
`available_rooms = 0`, `reserve_room` fails (leaving 0) but the
following `cancel_room` still increments, ending at 1, not at the
prior value 0. -/
theorem reserve_cancel_not_roundtrip :
    ¬ ((Hotel.cancel_room (Hotel.reserve_room ⟨"h1", "n", "l", 1, 0⟩ []).2.1
          (Hotel.reserve_room ⟨"h1", "n", "l", 1, 0⟩ []).2.2).2.1.available_rooms
        = (⟨"h1", "n", "l", 1, 0⟩ : Hotel).available_rooms) := by
  decide

/-- C3 (amended): for every hotel state with
`0 < available_rooms ≤ total_rooms` (so that `reserve_room` succeeds),
`reserve_room` followed by `cancel_room` restores `available_rooms` to
its value before the two calls. -/
theorem reserve_cancel_roundtrip (h : Hotel) (hotels : List Hotel)
    (h1 : 0 < h.available_rooms) (h2 : h.available_rooms ≤ h.total_rooms) :
    (Hotel.cancel_room (Hotel.reserve_room h hotels).2.1
        (Hotel.reserve_room h hotels).2.2).2.1.available_rooms
      = h.available_rooms := by
  have h3 : h.available_rooms - 1 < h.total_rooms := by omega
  simp [Hotel.reserve_room, Hotel.cancel_room, h1, h3]

/-- Witness for C3 (amended) at a concrete hotel. -/
theorem reserve_cancel_roundtrip_witness :
    (Hotel.cancel_room (Hotel.reserve_room ⟨"h1", "n", "l", 2, 2⟩ []).2.1
        (Hotel.reserve_room ⟨"h1", "n", "l", 2, 2⟩ []).2.2).2.1.available_rooms
      = (⟨"h1", "n", "l", 2, 2⟩ : Hotel).available_rooms :=
  reserve_cancel_roundtrip ⟨"h1", "n", "l", 2, 2⟩ [] (by decide) (by decide)

/-- C5: `reserve_room` on a hotel with `available_rooms = 0` returns
`False` and leaves both the in-memory instance and the hotels file
unchanged. -/
theorem reserve_room_no_availability (h : Hotel) (hotels : List Hotel)
    (h0 : h.available_rooms = 0) :
    Hotel.reserve_room h hotels = (false, h, hotels) := by
  simp [Hotel.reserve_room, h0]

/-- Witness for C5 at a concrete hotel. -/
theorem reserve_room_no_availability_witness :
    Hotel.reserve_room ⟨"h1", "n", "l", 3, 0⟩ [⟨"h1", "n", "l", 3, 0⟩]
      = (false, ⟨"h1", "n", "l", 3, 0⟩, [⟨"h1", "n", "l", 3, 0⟩]) :=
  reserve_room_no_availability ⟨"h1", "n", "l", 3, 0⟩ [⟨"h1", "n", "l", 3, 0⟩] rfl

/-- C6: when either argument of `create_reservation` fails its
`isinstance` check, the call returns `None` and the whole state — the
reservations file and every hotel's availability — is unchanged. -/
theorem create_reservation_invalid_args (cust hot : PyVal)
    (rid date : String) (st : SysState)
    (hbad : cust.isCustomer = false ∨ hot.isHotel = false) :
    Reservation.create_reservation cust hot rid date st = (none, st) := by
  cases cust <;> cases hot <;> try rfl
  rcases hbad with hb | hb <;> simp [PyVal.isCustomer, PyVal.isHotel] at hb

/-- Witness for C6 with a bare non-entity argument. -/
theorem create_reservation_invalid_args_witness :
    Reservation.create_reservation PyVal.other PyVal.other "r1" "d"
        ⟨[], [], []⟩ = (none, ⟨[], [], []⟩) :=
  create_reservation_invalid_args PyVal.other PyVal.other "r1" "d"
    ⟨[], [], []⟩ (Or.inl rfl)

/-- C8: deleting an entity by id (which filters it out of the stored
collection) and then looking the same id up returns not-found, for
hotels and for customers. -/
theorem delete_then_get_not_found (hid : String) (hotels : List Hotel)
    (cid : String) (customers : List Customer) :
    Hotel.get_hotel hid (Hotel.delete_hotel hid hotels) = none ∧
    Customer.get_customer cid (Customer.delete_customer cid customers)
      = none := by
  exact ⟨find?_filter_not_eq_none _ hotels, find?_filter_not_eq_none _ customers⟩

/-- C10: supplying the empty string for a truthy-merged string field of
`modify_info` (hotel name or location, customer name, email or phone)
is indistinguishable from not supplying the field, and leaves the field
unchanged. -/
theorem modify_info_empty_string (h : Hotel) (a : Option String)
    (t : Option Int) (hotels : List Hotel) (c : Customer)
    (b d : Option String) (customers : List Customer) :
    Hotel.modify_info h (some "") a t hotels
      = Hotel.modify_info h none a t hotels ∧
    (Hotel.modify_info h (some "") a t hotels).1.name = h.name ∧
    Hotel.modify_info h a (some "") t hotels
      = Hotel.modify_info h a none t hotels ∧
    (Hotel.modify_info h a (some "") t hotels).1.location = h.location ∧
    Customer.modify_info c (some "") b d customers
      = Customer.modify_info c none b d customers ∧
    (Customer.modify_info c (some "") b d customers).1.name = c.name ∧
    Customer.modify_info c b (some "") d customers
      = Customer.modify_info c b none d customers ∧
    (Customer.modify_info c b (some "") d customers).1.email = c.email ∧
    Customer.modify_info c b d (some "") customers
      = Customer.modify_info c b d none customers ∧
    (Customer.modify_info c b d (some "") customers).1.phone = c.phone := by
  refine ⟨rfl, ?_, rfl, ?_, rfl, ?_, rfl, ?_, rfl, ?_⟩ <;>
    simp [Hotel.modify_info, Customer.modify_info, applyStr] <;>
    cases t <;> simp

/-- C4: a reservation record is appended only when `reserve_room`
succeeded on the hotel argument; whenever the result is `None` (invalid
arguments or a failed `reserve_room`) the state is unchanged, and
whenever a reservation is returned the hotels file carries the
corresponding decrement and the record is appended. -/
theorem create_reservation_coupling (cust hot : PyVal)
    (rid date : String) (st : SysState) :
    ((Reservation.create_reservation cust hot rid date st).1 = none →
      (Reservation.create_reservation cust hot rid date st).2 = st) ∧
    ∀ r, (Reservation.create_reservation cust hot rid date st).1 = some r →
      ∃ h, hot = PyVal.hotel h ∧
        (Hotel.reserve_room h st.hotels).1 = true ∧
        (Reservation.create_reservation cust hot rid date st).2.hotels
          = (Hotel.reserve_room h st.hotels).2.2 ∧
        (Reservation.create_reservation cust hot rid date st).2.reservations
          = st.reservations ++ [r] := by
  cases cust with
  | customer c =>
    cases hot with
    | hotel h =>
      simp only [Reservation.create_reservation]
      cases hres : (Hotel.reserve_room h st.hotels).1 with
      | false => simp [hres]
      | true =>
        simp only [hres, if_true]
        refine ⟨by intro hx; exact absurd hx (by simp), ?_⟩
        intro r hr
        refine ⟨h, rfl, hres, rfl, ?_⟩
        simp only [Option.some.injEq] at hr
        rw [hr]
    | customer c2 => exact ⟨fun _ => rfl, fun r hr => absurd hr (by simp [Reservation.create_reservation])⟩
    | other => exact ⟨fun _ => rfl, fun r hr => absurd hr (by simp [Reservation.create_reservation])⟩
  | hotel h =>
    cases hot <;>
      exact ⟨fun _ => rfl, fun r hr => absurd hr (by simp [Reservation.create_reservation])⟩
  | other =>
    cases hot <;>
      exact ⟨fun _ => rfl, fun r hr => absurd hr (by simp [Reservation.create_reservation])⟩

/-- Witness for C4 at a concrete failing call (no availability). -/
theorem create_reservation_coupling_witness :
    (Reservation.create_reservation (PyVal.customer ⟨"c1", "n", "e", "p"⟩)
        (PyVal.hotel ⟨"h1", "n", "l", 1, 0⟩) "r1" "d"
        ⟨[⟨"h1", "n", "l", 1, 0⟩], [], []⟩).2
      = ⟨[⟨"h1", "n", "l", 1, 0⟩], [], []⟩ :=
  (create_reservation_coupling (PyVal.customer ⟨"c1", "n", "e", "p"⟩)
      (PyVal.hotel ⟨"h1", "n", "l", 1, 0⟩) "r1" "d"
      ⟨[⟨"h1", "n", "l", 1, 0⟩], [], []⟩).1 (by decide)

/-- C7: `cancel_reservation` returns `False` and changes nothing when
no stored reservation matches the id; when one matches it returns
`True`, removes the record from the reservations file, leaves the
hotels file unchanged when the referenced hotel no longer exists, and
otherwise applies that hotel's `cancel_room` to the hotels file. -/
theorem cancel_reservation_behavior (rid : String) (st : SysState) :
    (st.reservations.find? (fun x => x.reservation_id == rid) = none →
      Reservation.cancel_reservation rid st = (false, st)) ∧
    ∀ r, st.reservations.find? (fun x => x.reservation_id == rid) = some r →
      (Reservation.cancel_reservation rid st).1 = true ∧
      (Reservation.cancel_reservation rid st).2.reservations
        = st.reservations.filter (fun x => !(x.reservation_id == rid)) ∧
      (Hotel.get_hotel r.hotel_id st.hotels = none →
        (Reservation.cancel_reservation rid st).2.hotels = st.hotels) ∧
      ∀ h, Hotel.get_hotel r.hotel_id st.hotels = some h →
        (Reservation.cancel_reservation rid st).2.hotels
          = (Hotel.cancel_room h st.hotels).2.2 := by
  constructor
  · intro hnone
    simp [Reservation.cancel_reservation, hnone]
  · intro r hr
    refine ⟨?_, ?_, ?_, ?_⟩
    · simp [Reservation.cancel_reservation, hr]
    · simp [Reservation.cancel_reservation, hr]
    · intro hg
      simp [Reservation.cancel_reservation, hr, hg]
    · intro h hg
      simp [Reservation.cancel_reservation, hr, hg]

/-- Witness for C7 at a concrete state with no matching reservation. -/
theorem cancel_reservation_behavior_witness :
    Reservation.cancel_reservation "r1" ⟨[], [], []⟩
      = (false, ⟨[], [], []⟩) :=
  (cancel_reservation_behavior "r1" ⟨[], [], []⟩).1 (by decide)

/-- C9: cancelling a reservation whose referenced hotel exists but is
already full still removes the record and returns `True`, while that
hotel's `cancel_room` returns `False` and the hotels file is
unchanged. -/
theorem cancel_reservation_hotel_full (rid : String) (st : SysState)
    (r : Reservation) (h : Hotel)
    (hr : st.reservations.find? (fun x => x.reservation_id == rid) = some r)
    (hh : Hotel.get_hotel r.hotel_id st.hotels = some h)
    (hfull : h.available_rooms = h.total_rooms) :
    (Hotel.cancel_room h st.hotels).1 = false ∧
    Reservation.cancel_reservation rid st
      = (true, { st with reservations := st.reservations.filter (fun x => !(x.reservation_id == rid)) }) := by
  have hc : ¬ (h.available_rooms < h.total_rooms) := by omega
  constructor
  · simp [Hotel.cancel_room, hc]
  · simp [Reservation.cancel_reservation, hr, hh, Hotel.cancel_room, hc]

/-- Witness for C9 at a concrete full hotel and matching reservation. -/
theorem cancel_reservation_hotel_full_witness :
    (Hotel.cancel_room ⟨"h1", "n", "l", 2, 2⟩
        [⟨"h1", "n", "l", 2, 2⟩]).1 = false ∧
    Reservation.cancel_reservation "r1"
        ⟨[⟨"h1", "n", "l", 2, 2⟩], [], [⟨"r1", "c1", "h1", "d"⟩]⟩
      = (true, { hotels := [⟨"h1", "n", "l", 2, 2⟩], customers := [], reservations := List.filter (fun x => !(x.reservation_id == "r1")) [⟨"r1", "c1", "h1", "d"⟩] }) :=
  cancel_reservation_hotel_full "r1"
    ⟨[⟨"h1", "n", "l", 2, 2⟩], [], [⟨"r1", "c1", "h1", "d"⟩]⟩
    ⟨"r1", "c1", "h1", "d"⟩ ⟨"h1", "n", "l", 2, 2⟩
    (by decide) (by decide) (by decide)

/-- If every element of the hotels file satisfies the invariant and the
image under `f` of the first match does too, then the file after an
`updateFirst` write satisfies it everywhere. -/
theorem allInv_updateFirst {l : List Hotel} {p : Hotel → Bool}
    {f : Hotel → Hotel} (hinv : ∀ x ∈ l, hotelInv x)
    (hf : ∀ y, l.find? p = some y → hotelInv (f y)) :
    ∀ x ∈ updateFirst p f l, hotelInv x := by
  intro x hx
  rcases mem_updateFirst hx with hmem | ⟨y, hy, hxy⟩
  · exact hinv x hmem
  · rw [hxy]
    exact hf y hy

/-- A hotel fetched by `get_hotel` is also the first match for the
predicate that the instance methods use to sync the file (its own
`hotel_id`). -/
theorem get_hotel_find?_self {hid : String} {l : List Hotel} {h : Hotel}
    (hg : Hotel.get_hotel hid l = some h) :
    l.find? (fun x => x.hotel_id == h.hotel_id) = some h := by
  have hg' : l.find? (fun x => x.hotel_id == hid) = some h := hg
  have hp := List.find?_some hg'
  have heq : h.hotel_id = hid := by simpa using hp
  rw [heq]
  exact hg'

/-- `reserve_room` on a hotel fetched from an invariant-respecting file
leaves the file invariant-respecting. -/
theorem reserve_room_preserves {hid : String} {l : List Hotel} {h : Hotel}
    (hg : Hotel.get_hotel hid l = some h) (hinv : ∀ x ∈ l, hotelInv x) :
    ∀ x ∈ (Hotel.reserve_room h l).2.2, hotelInv x := by
  have hg' : l.find? (fun x => x.hotel_id == hid) = some h := hg
  have hIh : hotelInv h := hinv h (List.mem_of_find?_eq_some hg')
  by_cases hc : h.available_rooms > 0
  · simp only [Hotel.reserve_room, if_pos hc]
    apply allInv_updateFirst hinv
    intro y hy
    have hyh : y = h := by
      rw [get_hotel_find?_self hg] at hy
      exact (Option.some.inj hy).symm
    rw [hyh]
    rcases hIh with ⟨ha, hb⟩
    exact ⟨by simp; omega, by simp; omega⟩
  · simp only [Hotel.reserve_room, if_neg hc]
    exact hinv

/-- `cancel_room` on a hotel fetched from an invariant-respecting file
leaves the file invariant-respecting. -/
theorem cancel_room_preserves {hid : String} {l : List Hotel} {h : Hotel}
    (hg : Hotel.get_hotel hid l = some h) (hinv : ∀ x ∈ l, hotelInv x) :
    ∀ x ∈ (Hotel.cancel_room h l).2.2, hotelInv x := by
  have hg' : l.find? (fun x => x.hotel_id == hid) = some h := hg
  have hIh : hotelInv h := hinv h (List.mem_of_find?_eq_some hg')
  by_cases hc : h.available_rooms < h.total_rooms
  · simp only [Hotel.cancel_room, if_pos hc]
    apply allInv_updateFirst hinv
    intro y hy
    have hyh : y = h := by
      rw [get_hotel_find?_self hg] at hy
      exact (Option.some.inj hy).symm
    rw [hyh]
    rcases hIh with ⟨ha, hb⟩
    exact ⟨by simp; omega, by simp; omega⟩
  · simp only [Hotel.cancel_room, if_neg hc]
    exact hinv

/-- The instance produced by `modify_info` satisfies the invariant when
the instance it starts from does and the supplied `total_rooms` (if
any) is non-negative. -/
theorem modify_info_inv {h : Hotel} (nm loc : Option String)
    (hotels : List Hotel) {total : Option Int} (hIh : hotelInv h)
    (hwf : ∀ t, total = some t → 0 ≤ t) :
    hotelInv (Hotel.modify_info h nm loc total hotels).1 := by
  rcases hIh with ⟨ha, hb⟩
  cases total with
  | none => exact ⟨by simp [Hotel.modify_info]; omega, by simp [Hotel.modify_info]; omega⟩
  | some t =>
    have ht : 0 ≤ t := hwf t rfl
    constructor
    · simp [Hotel.modify_info]
      split <;> omega
    · simp [Hotel.modify_info]
      split <;> omega

/-- `modify_info` with a non-negative `total_rooms` argument on a hotel
fetched from an invariant-respecting file leaves the file
invariant-respecting. -/
theorem modify_info_preserves {hid : String} {l : List Hotel} {h : Hotel}
    (nm loc : Option String) {total : Option Int}
    (hg : Hotel.get_hotel hid l = some h) (hinv : ∀ x ∈ l, hotelInv x)
    (hwf : ∀ t, total = some t → 0 ≤ t) :
    ∀ x ∈ (Hotel.modify_info h nm loc total l).2, hotelInv x := by
  have hg' : l.find? (fun x => x.hotel_id == hid) = some h := hg
  have hIh : hotelInv h := hinv h (List.mem_of_find?_eq_some hg')
  simp only [Hotel.modify_info]
  apply allInv_updateFirst hinv
  intro y _
  exact modify_info_inv nm loc l hIh hwf

/-- The hotels file after a `createRes` step is either untouched or the
result of `reserve_room` on a hotel fetched from it. -/
theorem runOp_createRes_hotels (cust hot : Option String)
    (rid date : String) (st : SysState) :
    (runOp st (Op.createRes cust hot rid date)).hotels = st.hotels ∨
    ∃ hid h, Hotel.get_hotel hid st.hotels = some h ∧
      (runOp st (Op.createRes cust hot rid date)).hotels
        = (Hotel.reserve_room h st.hotels).2.2 := by
  cases cust with
  | none =>
    left
    cases hot with
    | none => rfl
    | some hid =>
      cases hg : Hotel.get_hotel hid st.hotels with
      | none => simp [runOp, hg, Reservation.create_reservation]
      | some h => simp [runOp, hg, Reservation.create_reservation]
  | some cid =>
    cases hc : Customer.get_customer cid st.customers with
    | none =>
      left
      cases hot with
      | none => simp [runOp, hc, Reservation.create_reservation]
      | some hid =>
        cases hg : Hotel.get_hotel hid st.hotels with
        | none => simp [runOp, hc, hg, Reservation.create_reservation]
        | some h => simp [runOp, hc, hg, Reservation.create_reservation]
    | some c =>
      cases hot with
      | none => left; simp [runOp, hc, Reservation.create_reservation]
      | some hid =>
        cases hg : Hotel.get_hotel hid st.hotels with
        | none => left; simp [runOp, hc, hg, Reservation.create_reservation]
        | some h =>
          cases hres : (Hotel.reserve_room h st.hotels).1 with
          | false =>
            left
            simp [runOp, hc, hg, Reservation.create_reservation, hres]
          | true =>
            right
            refine ⟨hid, h, hg, ?_⟩
            simp [runOp, hc, hg, Reservation.create_reservation, hres]

/-- The hotels file after `cancel_reservation` is either untouched or
the result of `cancel_room` on a hotel fetched from it. -/
theorem cancel_reservation_hotels (rid : String) (st : SysState) :
    (Reservation.cancel_reservation rid st).2.hotels = st.hotels ∨
    ∃ hid h, Hotel.get_hotel hid st.hotels = some h ∧
      (Reservation.cancel_reservation rid st).2.hotels
        = (Hotel.cancel_room h st.hotels).2.2 := by
  cases hr : st.reservations.find? (fun r => r.reservation_id == rid) with
  | none => left; simp [Reservation.cancel_reservation, hr]
  | some r =>
    cases hg : Hotel.get_hotel r.hotel_id st.hotels with
    | none => left; simp [Reservation.cancel_reservation, hr, hg]
    | some h =>
      right
      refine ⟨r.hotel_id, h, hg, ?_⟩
      simp [Reservation.cancel_reservation, hr, hg]

/-- One step of `runOp` preserves the room-count invariant on every
stored hotel, given a well-formed operation. -/
theorem runOp_preserves (st : SysState) (op : Op) (hwf : op.wf = true)
    (hinv : HotelsInv st) : HotelsInv (runOp st op) := by
  cases op with
  | createHotel hid nm loc total =>
    have ht : 0 ≤ total := by
      simpa [Op.wf] using hwf
    intro x hx
    simp only [runOp, Hotel.create_hotel, List.mem_append,
      List.mem_singleton] at hx
    rcases hx with hx | hx
    · exact hinv x hx
    · rw [hx]
      exact ⟨ht, le_refl total⟩
  | modifyHotel hid nm loc total =>
    have ht : ∀ t, total = some t → 0 ≤ t := by
      intro t htot
      rw [htot] at hwf
      simpa [Op.wf] using hwf
    simp only [runOp]
    cases hg : Hotel.get_hotel hid st.hotels with
    | none => exact hinv
    | some h =>
      intro x hx
      exact modify_info_preserves nm loc hg hinv ht x hx
  | reserveRoom hid =>
    simp only [runOp]
    cases hg : Hotel.get_hotel hid st.hotels with
    | none => exact hinv
    | some h =>
      intro x hx
      exact reserve_room_preserves hg hinv x hx
  | cancelRoom hid =>
    simp only [runOp]
    cases hg : Hotel.get_hotel hid st.hotels with
    | none => exact hinv
    | some h =>
      intro x hx
      exact cancel_room_preserves hg hinv x hx
  | createRes cust hot rid date =>
    rcases runOp_createRes_hotels cust hot rid date st with heq | ⟨hid, h, hg, heq⟩
    · intro x hx
      rw [heq] at hx
      exact hinv x hx
    · intro x hx
      rw [heq] at hx
      exact reserve_room_preserves hg hinv x hx
  | cancelRes rid =>
    rcases cancel_reservation_hotels rid st with heq | ⟨hid, h, hg, heq⟩
    · intro x hx
      have hx' : x ∈ (Reservation.cancel_reservation rid st).2.hotels := hx
      rw [heq] at hx'
      exact hinv x hx'
    · intro x hx
      have hx' : x ∈ (Reservation.cancel_reservation rid st).2.hotels := hx
      rw [heq] at hx'
      exact cancel_room_preserves hg hinv x hx'

/-- C1: after any sequence of operations whose `total_rooms` arguments
respect the data model (non-negative integers), starting from a store
whose hotels all satisfy `0 ≤ available_rooms ≤ total_rooms`, every
hotel still satisfies it. -/
theorem hotels_room_invariant (ops : List Op) (st : SysState)
    (hwf : ops.all Op.wf = true) (hinv : HotelsInv st) :
    HotelsInv (runOps ops st) := by
  induction ops generalizing st with
  | nil => exact hinv
  | cons op ops ih =>
    rw [List.all_cons, Bool.and_eq_true] at hwf
    exact ih (runOp st op) hwf.2 (runOp_preserves st op hwf.1 hinv)

/-- Witness for C1: a concrete operation sequence exercising creation,
reservation via `create_reservation`, cancellation and a `total_rooms`
update, from the empty store. -/
theorem hotels_room_invariant_witness :
    HotelsInv (runOps
      [Op.createHotel "h1" "n" "l" 2,
       Op.reserveRoom "h1",
       Op.createRes (some "c1") (some "h1") "r1" "d",
       Op.cancelRes "r1",
       Op.modifyHotel "h1" none none (some 5),
       Op.cancelRoom "h1"]
      ⟨[], [], []⟩) :=
  hotels_room_invariant
    [Op.createHotel "h1" "n" "l" 2,
     Op.reserveRoom "h1",
     Op.createRes (some "c1") (some "h1") "r1" "d",
     Op.cancelRes "r1",
     Op.modifyHotel "h1" none none (some 5),
     Op.cancelRoom "h1"]
    ⟨[], [], []⟩ (by decide) (by decide)
